import Mathlib

/-!
Shallow embedding of the MerryChristmas repository: the chaos/cone point
samplers (src/utils/math.ts), the gesture classifier and per-frame detection
step (the VisionService), the app-level state machine and error handling
(the App component), the per-entity progress animators (Foliage, Ornaments,
Topper, PolaroidPhotos), and the photo-manifest loading pipeline.

Real-valued geometry (square roots, trigonometry) is embedded over ℝ; the
progress recurrences and the height-band arithmetic use only field
operations and are embedded over ℚ so they stay executable.
-/

/-- TreeState from src/types.ts: the scene is either scattered or formed. -/
inductive TreeState
  | CHAOS
  | FORMED
deriving DecidableEq, Repr

/-- AppState from src/types.ts. -/
inductive AppState
  | IDLE
  | LOADING
  | READY
  | RUNNING
  | ERROR
deriving DecidableEq, Repr

/- ----------------------------------------------------------------
   Progress animators (Foliage / Ornaments / Topper / PolaroidPhotos)
   ---------------------------------------------------------------- -/

/-- One application of the shared easing recurrence
`p += (dest - p) * speed` that every animator uses. -/
def stepProgress (dest speed p : ℚ) : ℚ := p + (dest - p) * speed

/-- THREE.MathUtils.lerp as used by Foliage: `lerp(x, y, t) = x + (y - x) * t`. -/
def lerpQ (x y t : ℚ) : ℚ := x + (y - x) * t

/-- The destination each animator eases toward: 1 when FORMED, else 0
(`isForming ? 1 : 0` in the components). -/
def destOf (s : TreeState) : ℚ := if s = TreeState.FORMED then 1 else 0

/-- Per-frame progress update of the Foliage component:
`uProgress = lerp(uProgress, targetProgress, 0.02)`. -/
def foliageFrameProgress (s : TreeState) (p : ℚ) : ℚ :=
  lerpQ p (destOf s) 0.02

/-- Per-frame progress update of the Topper component (speed 0.02,
executed once per frame). -/
def topperFrameProgress (s : TreeState) (p : ℚ) : ℚ :=
  stepProgress (destOf s) 0.02 p

/-- Per-frame progress update of the PolaroidPhotos parent component:
`progressRef.current += (dest - progressRef.current) * 0.02`, once per frame. -/
def polaroidFrameProgress (s : TreeState) (p : ℚ) : ℚ :=
  stepProgress (destOf s) 0.02 p

/-- The two instanced ornament meshes of the scene. -/
inductive OrnamentKind
  | ball
  | gift
deriving DecidableEq, Repr

/-- Instance count of an Ornaments mesh: `type === 'ball' ? 50 : 30`. -/
def ornamentCount : OrnamentKind → ℕ
  | OrnamentKind.ball => 50
  | OrnamentKind.gift => 30

/-- Easing speed of an Ornaments mesh: `type === 'ball' ? 0.025 : 0.015`. -/
def ornamentSpeed : OrnamentKind → ℚ
  | OrnamentKind.ball => 0.025
  | OrnamentKind.gift => 0.015

/-- The per-frame instance loop of Ornaments as it acts on the single
shared `meshRef.current.userData.progress` cell: the body executes
`progress += (dest - progress) * speed` once per instance, so a frame
over `n` instances applies the recurrence `n` times. -/
def ornamentsLoop (dest speed : ℚ) : ℕ → ℚ → ℚ
  | 0, p => p
  | n + 1, p => ornamentsLoop dest speed n (stepProgress dest speed p)

/-- Net per-frame effect of an Ornaments mesh on its progress cell. -/
def ornamentsFrameProgress (k : OrnamentKind) (s : TreeState) (p : ℚ) : ℚ :=
  ornamentsLoop (destOf s) (ornamentSpeed k) (ornamentCount k) p

/-- The progress values the successive instances of one Ornaments mesh
read during a single frame: instance `i` is positioned with the cell's
value right after its own update of the shared cell. -/
def ornamentsProgressReads (dest speed : ℚ) : ℕ → ℚ → List ℚ
  | 0, _ => []
  | n + 1, p =>
      stepProgress dest speed p ::
        ornamentsProgressReads dest speed n (stepProgress dest speed p)

/-- The progress value an individual PolaroidPhoto child reads in its
frame callback: `progressRef.current` of the parent, the same shared cell
for every photo index. -/
def photoProgressRead (shared : ℚ) (_i : ℕ) : ℚ := shared

/-- The progress trajectory of a once-per-frame animator started at 0:
`ticks dest speed n` is the progress after `n` frames. -/
def ticks (dest speed : ℚ) : ℕ → ℚ
  | 0 => 0
  | n + 1 => stepProgress dest speed (ticks dest speed n)

/-- The progress scalars that exist in a mounted scene, one per animator
component: the foliage shader uniform, the three ornament meshes
(two ball-colored, one gift), the topper mesh, and the polaroid parent. -/
structure SystemProgress where
  foliage : ℚ
  ballGold : ℚ
  ballRed : ℚ
  gift : ℚ
  topper : ℚ
  photos : ℚ
deriving DecidableEq, Repr

/-- One render frame's effect on all progress scalars: each component's
useFrame callback updates only the scalar it owns. -/
def systemFrame (s : TreeState) (st : SystemProgress) : SystemProgress :=
  { foliage := foliageFrameProgress s st.foliage
    ballGold := ornamentsFrameProgress OrnamentKind.ball s st.ballGold
    ballRed := ornamentsFrameProgress OrnamentKind.ball s st.ballRed
    gift := ornamentsFrameProgress OrnamentKind.gift s st.gift
    topper := topperFrameProgress s st.topper
    photos := polaroidFrameProgress s st.photos }

/- ----------------------------------------------------------------
   Gesture classifier and per-frame detection (VisionService.detect)
   ---------------------------------------------------------------- -/

/-- One normalized hand landmark (the xy-plane part that detect uses). -/
structure Landmark where
  x : ℝ
  y : ℝ

/-- The fingertip landmark indices: `const tips = [4, 8, 12, 16, 20]`. -/
def tipIndices : List ℕ := [4, 8, 12, 16, 20]

/-- Euclidean distance in the xy-plane,
`Math.sqrt(Math.pow(tip.x - wrist.x, 2) + Math.pow(tip.y - wrist.y, 2))`. -/
noncomputable def eucDistXY (a b : Landmark) : ℝ :=
  Real.sqrt ((b.x - a.x) ^ 2 + (b.y - a.y) ^ 2)

/-- Average distance from the wrist (landmark 0) to the five fingertip
landmarks: the `totalDist` accumulation divided by `tips.length`. -/
noncomputable def avgTipDist (landmarks : List Landmark) : ℝ :=
  (tipIndices.map fun idx =>
      eucDistXY (landmarks.getD 0 ⟨0, 0⟩) (landmarks.getD idx ⟨0, 0⟩)).sum
    / (tipIndices.length : ℝ)

/-- The openness classification: `const isOpen = avgDist > 0.25`. -/
noncomputable def handIsOpen (landmarks : List Landmark) : Bool :=
  decide (avgTipDist landmarks > 0.25)

/-- The gesture reading detect returns (null modelled by `Option` at the
call sites). -/
structure Reading where
  isOpen : Bool
  x : ℝ
  y : ℝ
  detected : Bool

/-- Landmark-list centroid coordinate, mirrored and remapped to [-1, 1]:
`-((sum / landmarks.length) - 0.5) * 2`. -/
noncomputable def mirroredCentroid (sum : ℝ) (n : ℕ) : ℝ :=
  -(sum / (n : ℝ) - 0.5) * 2

/-- The detected-hand branch of detect: classify openness from the
fingertip spread and take the mirrored centroid as the hand position. -/
noncomputable def classifyHand (landmarks : List Landmark) : Reading :=
  { isOpen := handIsOpen landmarks
    x := mirroredCentroid (landmarks.map Landmark.x).sum landmarks.length
    y := mirroredCentroid (landmarks.map Landmark.y).sum landmarks.length
    detected := true }

/-- Outcome of `handLandmarker.detectForVideo`: it can throw, or return a
(possibly empty) list of per-hand landmark lists. -/
inductive InferenceResult
  | throwsErr
  | hands (landmarksList : List (List Landmark))

/-- The mutable VisionService fields detect consults. -/
structure VisionState where
  hasLandmarker : Bool
  hasVideo : Bool
  isRunning : Bool
  lastVideoTime : ℚ

/-- The video-element state and inference outcome of the current tick. -/
structure VideoFrame where
  videoWidth : ℕ
  videoHeight : ℕ
  currentTime : ℚ
  inference : InferenceResult

/-- VisionService.detect: returns `none` ("no new data this tick") when the
service is not ready, when the video has zero width or height, when the
video timestamp was already processed, or when inference throws; on a fresh
frame it records the new timestamp, then returns the zeroed not-detected
reading when no hand is found and the classified reading otherwise. -/
noncomputable def detect (s : VisionState) (f : VideoFrame) :
    Option Reading × VisionState :=
  if !s.hasLandmarker || !s.hasVideo || !s.isRunning then (none, s)
  else if f.videoWidth = 0 || f.videoHeight = 0 then (none, s)
  else if f.currentTime = s.lastVideoTime then (none, s)
  else
    let s' := { s with lastVideoTime := f.currentTime }
    match f.inference with
    | InferenceResult.throwsErr => (none, s')
    | InferenceResult.hands [] =>
        (some { isOpen := false, x := 0, y := 0, detected := false }, s')
    | InferenceResult.hands (h :: _) => (some (classifyHand h), s')

/- ----------------------------------------------------------------
   App component: render-loop state updates and startup error handling
   ---------------------------------------------------------------- -/

/-- HandGesture from src/types.ts, as stored by setGesture. -/
structure HandGesture where
  isOpen : Bool
  pos : ℝ × ℝ
  detected : Bool

/-- The App state the render loop mutates. -/
structure AppModel where
  gesture : Option HandGesture
  treeState : TreeState

/-- One pass of the loop body over a detect result: a `null` result leaves
both the stored gesture and the tree state untouched; a non-null result
overwrites the stored gesture wholesale, and additionally maps open/closed
to CHAOS/FORMED when (and only when) the hand was detected. -/
def applyDetect (m : AppModel) (result : Option Reading) : AppModel :=
  match result with
  | none => m
  | some r =>
      let m1 := { m with
        gesture := some { isOpen := r.isOpen, pos := (r.x, r.y), detected := r.detected } }
      if r.detected then
        if r.isOpen then { m1 with treeState := TreeState.CHAOS }
        else { m1 with treeState := TreeState.FORMED }
      else m1

/-- The camera-related error-name test of startExperience's catch block. -/
def cameraRelated (errName : String) : Bool :=
  errName == "NotFoundError" ||
  errName == "NotAllowedError" ||
  errName == "NotReadableError" ||
  errName == "OverconstrainedError" ||
  errName == "SecurityError"

/-- The message shown for a non-camera failure:
`e?.message || 'Failed to start camera or load AI models.'`
(JavaScript `||` replaces both a missing and an empty message). -/
def startFailureMessage : Option String → String
  | none => "Failed to start camera or load AI models."
  | some msg =>
      if msg == "" then "Failed to start camera or load AI models." else msg

/-- Outcome of startExperience's catch block on an initialization error:
the resulting AppState together with the errorMsg it leaves behind
(errorMsg was reset to "" at the start of the attempt). -/
def startExperienceFailure (errName : String) (errMessage : Option String) :
    AppState × String :=
  if cameraRelated errName then (AppState.RUNNING, "")
  else (AppState.ERROR, startFailureMessage errMessage)

/- ----------------------------------------------------------------
   Point samplers (src/utils/math.ts), with the random draws explicit
   ---------------------------------------------------------------- -/

/-- getRandomSpherePoint with its three `Math.random()` draws `u v w` made
explicit: spherical coordinates with `theta = 2πu`, `phi = acos(2v - 1)`
and radius `cbrt(w) * radius` (for `w ∈ [0, 1)` the cube root is the real
power `w ^ (1/3)`). -/
noncomputable def getRandomSpherePoint (radius u v w : ℝ) : ℝ × ℝ × ℝ :=
  (w ^ ((1 : ℝ) / 3) * radius * Real.sin (Real.arccos (2 * v - 1)) *
      Real.cos (2 * Real.pi * u),
   w ^ ((1 : ℝ) / 3) * radius * Real.sin (Real.arccos (2 * v - 1)) *
      Real.sin (2 * Real.pi * u),
   w ^ ((1 : ℝ) / 3) * radius * Real.cos (Real.arccos (2 * v - 1)))

/-- getConePoint with its three `Math.random()` draws `u1 u2 u3` made
explicit: `y = u1 * height`, radius bound `(1 - y/height) * maxRadius`,
angle `u2 * π * 2`, radius `sqrt(u3)` times the bound, and result
`(r cos angle, y - height/2 + verticalBias, r sin angle)`. -/
noncomputable def getConePoint (height maxRadius verticalBias u1 u2 u3 : ℝ) :
    ℝ × ℝ × ℝ :=
  (Real.sqrt u3 * ((1 - u1 * height / height) * maxRadius) *
      Real.cos (u2 * Real.pi * 2),
   u1 * height - height / 2 + verticalBias,
   Real.sqrt u3 * ((1 - u1 * height / height) * maxRadius) *
      Real.sin (u2 * Real.pi * 2))

/- ----------------------------------------------------------------
   Photo-manifest loading and height-banded placement (PolaroidPhotos)
   ---------------------------------------------------------------- -/

/-- The parsed manifest JSON: either a bare array or an object whose
`files` field may or may not be an array of strings. -/
inductive ManifestJson
  | arr (files : List String)
  | obj (files : Option (List String))

/-- Outcome of the manifest fetch: the fetch (or `res.json()`) can throw,
the response can be non-ok, or a JSON value is produced. -/
inductive ManifestFetch
  | fetchFail
  | notOk (status : ℕ)
  | ok (json : ManifestJson)

/-- The file list the manifest effect stores: any throw is caught and
stores `[]`; a non-ok response throws (caught the same way); a JSON value
contributes its array (`Array.isArray(json) ? json : json.files`), with a
non-array fallback of `[]`. -/
def manifestFiles : ManifestFetch → List String
  | ManifestFetch.fetchFail => []
  | ManifestFetch.notOk _ => []
  | ManifestFetch.ok (ManifestJson.arr fs) => fs
  | ManifestFetch.ok (ManifestJson.obj (some fs)) => fs
  | ManifestFetch.ok (ManifestJson.obj none) => []

/-- One photo candidate before preloading: id `p{idx+1}` and resolved src. -/
structure PhotoItem where
  id : String
  src : String
deriving DecidableEq, Repr

/-- The candidate list built from the manifest file names
(`files.map((fileName, idx) => ...)`), src resolution abstracted as a
function parameter. -/
def photoCandidates (resolveUrl : String → String) (files : List String) :
    List PhotoItem :=
  files.enum.map fun p => { id := "p" ++ toString (p.1 + 1), src := resolveUrl p.2 }

/-- The preload step: each candidate resolves to itself on load and to null
on error, and nulls are filtered out — one broken image removes only that
item. `loads` tells whether a given src loads. -/
def loadedPhotoItems (resolveUrl : String → String) (loads : String → Bool)
    (files : List String) : List PhotoItem :=
  (photoCandidates resolveUrl files).filter fun c => loads c.src

/-- CONFIG.treeHeight. -/
def treeHeight : ℚ := 12

/-- The lower end of the photo placement range (`const minY = 1.8`). -/
def photoMinY : ℚ := 1.8

/-- The upper end of the photo placement range
(`const maxY = CONFIG.treeHeight - 2.8`). -/
def photoMaxY : ℚ := treeHeight - 2.8

/-- THREE.MathUtils.clamp: `Math.max(min, Math.min(max, value))`. -/
def clampQ (value lo hi : ℚ) : ℚ := max lo (min hi value)

/-- Center of photo `i`'s height band among `n` photos:
`minY + (maxY - minY) * bandT` with `bandT = (i + 0.5) / n`. -/
def photoBandCenter (n i : ℕ) : ℚ :=
  photoMinY + (photoMaxY - photoMinY) * (((i : ℚ) + 0.5) / (n : ℚ))

/-- The internal cone height assigned to photo `i` of `n`: the band center
plus the jitter draw (`(Math.random() - 0.5) * 1.2`, so `jitter ∈ [-0.6, 0.6]`),
clamped back into `[minY, maxY]`. -/
def photoYInternal (n i : ℕ) (jitter : ℚ) : ℚ :=
  clampQ (photoBandCenter n i + jitter) photoMinY photoMaxY

/-- Midpoint of the photo placement range: the boundary between the lower
and upper halves when two photos are placed. -/
def photoBandMid : ℚ := photoMinY + (photoMaxY - photoMinY) / 2

/-- A synthetic landmark list of 21 points: the wrist and all non-tip
landmarks at the origin, the five fingertip landmarks at distance `d`
along the x axis, so the average fingertip-to-wrist distance is `d`. -/
def syntheticHand (d : ℝ) : List Landmark :=
  [⟨0, 0⟩, ⟨0, 0⟩, ⟨0, 0⟩, ⟨0, 0⟩, ⟨d, 0⟩,
   ⟨0, 0⟩, ⟨0, 0⟩, ⟨0, 0⟩, ⟨d, 0⟩,
   ⟨0, 0⟩, ⟨0, 0⟩, ⟨0, 0⟩, ⟨d, 0⟩,
   ⟨0, 0⟩, ⟨0, 0⟩, ⟨0, 0⟩, ⟨d, 0⟩,
   ⟨0, 0⟩, ⟨0, 0⟩, ⟨0, 0⟩, ⟨d, 0⟩]

/- ----------------------------------------------------------------
   Helper lemmas
   ---------------------------------------------------------------- -/

/-- The per-frame instance loop of Ornaments applies the easing recurrence
once per instance. -/
theorem ornamentsLoop_eq_iterate (dest speed : ℚ) :
    ∀ (n : ℕ) (p : ℚ),
      ornamentsLoop dest speed n p = (stepProgress dest speed)^[n] p := by
  intro n
  induction n with
  | zero => intro p; rfl
  | succ k ih =>
      intro p
      rw [ornamentsLoop, ih, Function.iterate_succ_apply]

/-- Closed form of the once-per-frame trajectory toward destination 1. -/
theorem ticks_closed_form (speed : ℚ) :
    ∀ n : ℕ, ticks 1 speed n = 1 - (1 - speed) ^ n := by
  intro n
  induction n with
  | zero => simp [ticks]
  | succ k ih =>
      rw [ticks, stepProgress, ih, pow_succ]
      ring

/-- The once-per-frame trajectory is the recurrence iterated from 0. -/
theorem ticks_eq_iterate (dest speed : ℚ) :
    ∀ n : ℕ, ticks dest speed n = (stepProgress dest speed)^[n] 0 := by
  intro n
  induction n with
  | zero => rfl
  | succ k ih => rw [ticks, ih, Function.iterate_succ_apply']

/-- Each position in the reads list of one Ornaments frame holds the shared
cell after one more application of the recurrence. -/
theorem ornamentsProgressReads_get (dest speed : ℚ) :
    ∀ (n : ℕ) (p : ℚ) (i : ℕ), i < n →
      (ornamentsProgressReads dest speed n p).get? i =
        some ((stepProgress dest speed)^[i + 1] p) := by
  intro n
  induction n with
  | zero => intro p i hi; exact absurd hi (Nat.not_lt_zero i)
  | succ k ih =>
      intro p i hi
      cases i with
      | zero => simp [ornamentsProgressReads]
      | succ j =>
          rw [ornamentsProgressReads]
          rw [List.get?_cons_succ, ih _ j (Nat.lt_of_succ_lt_succ hi)]
          simp [Function.iterate_succ_apply]

/- ----------------------------------------------------------------
   Claim theorems
   ---------------------------------------------------------------- -/

/-- C1: the scene state machine over CHAOS/FORMED as the render loop drives
it: a detected closed-hand reading moves the state to FORMED, a detected
open-hand reading moves it to CHAOS (in particular back from FORMED), and a
not-detected reading never changes the state. -/
theorem c1_scene_state_machine :
    (∀ (m : AppModel) (r : Reading), r.detected = true → r.isOpen = false →
        (applyDetect m (some r)).treeState = TreeState.FORMED) ∧
    (∀ (m : AppModel) (r : Reading), r.detected = false →
        (applyDetect m (some r)).treeState = m.treeState) ∧
    (∀ (m : AppModel) (r : Reading), r.detected = true → r.isOpen = true →
        (applyDetect m (some r)).treeState = TreeState.CHAOS) := by
  refine ⟨?_, ?_, ?_⟩
  · intro m r hd ho
    simp [applyDetect, hd, ho]
  · intro m r hd
    simp [applyDetect, hd]
  · intro m r hd ho
    simp [applyDetect, hd, ho]

/-- C1 witness: the concrete three-reading scenario of the claim, starting
in CHAOS: closed-and-detected forms the tree, a not-detected reading holds
FORMED, open-and-detected unleashes chaos again. -/
theorem c1_scene_state_machine_witness :
    ((applyDetect { gesture := none, treeState := TreeState.CHAOS }
        (some { isOpen := false, x := 0, y := 0, detected := true })).treeState =
      TreeState.FORMED) ∧
    ((applyDetect { gesture := none, treeState := TreeState.FORMED }
        (some { isOpen := true, x := 0, y := 0, detected := false })).treeState =
      TreeState.FORMED) ∧
    ((applyDetect { gesture := none, treeState := TreeState.FORMED }
        (some { isOpen := true, x := 0, y := 0, detected := true })).treeState =
      TreeState.CHAOS) :=
  ⟨c1_scene_state_machine.1 _ _ rfl rfl,
   c1_scene_state_machine.2.1 _ _ rfl,
   c1_scene_state_machine.2.2 _ _ rfl rfl⟩

/-- C2 (amended): the foliage, topper and photo animators update their
progress exactly once per frame by `p += (dest − p) × speed` with speed
0.02 and destination 1 iff FORMED, while the ball and gift ornament meshes
apply that recurrence once per instance inside the frame loop (50 and 30
times respectively); the once-per-frame trajectory from 0 at speed 0.02
reaches 0.02 after one tick, equals `1 − 0.98^N` after `N` ticks, and
approaches 1 monotonically without leaving `[0, 1]`. -/
theorem c2_progress_recurrence :
    (∀ (s : TreeState) (p : ℚ),
        foliageFrameProgress s p = stepProgress (destOf s) 0.02 p) ∧
    (∀ (s : TreeState) (p : ℚ),
        topperFrameProgress s p = stepProgress (destOf s) 0.02 p) ∧
    (∀ (s : TreeState) (p : ℚ),
        polaroidFrameProgress s p = stepProgress (destOf s) 0.02 p) ∧
    (∀ (k : OrnamentKind) (s : TreeState) (p : ℚ),
        ornamentsFrameProgress k s p =
          (stepProgress (destOf s) (ornamentSpeed k))^[ornamentCount k] p) ∧
    (destOf TreeState.FORMED = 1 ∧ destOf TreeState.CHAOS = 0) ∧
    (ticks 1 0.02 1 = 0.02) ∧
    (∀ n : ℕ, ticks 1 0.02 n = 1 - (1 - 0.02) ^ n) ∧
    (∀ n : ℕ, ticks 1 0.02 n ≤ ticks 1 0.02 (n + 1)) ∧
    (∀ n : ℕ, 0 ≤ ticks 1 0.02 n ∧ ticks 1 0.02 n ≤ 1) := by
  have hq0 : (0 : ℚ) ≤ 1 - 0.02 := by norm_num
  have hq1 : (1 : ℚ) - 0.02 ≤ 1 := by norm_num
  refine ⟨fun s p => rfl, fun s p => rfl, fun s p => rfl,
    fun k s p => ornamentsLoop_eq_iterate _ _ _ _, ⟨rfl, rfl⟩,
    by norm_num [ticks, stepProgress], ticks_closed_form 0.02, ?_, ?_⟩
  · intro n
    rw [ticks_closed_form, ticks_closed_form]
    have h := pow_le_pow_of_le_one hq0 hq1 (Nat.le_succ n)
    simp only [Nat.succ_eq_add_one] at h
    linarith
  · intro n
    rw [ticks_closed_form]
    constructor
    · have h := pow_le_one₀ hq0 hq1 (n := n)
      linarith
    · have h := pow_nonneg hq0 n
      linarith

/-- C2 counterexample: the ball ornament mesh's net per-frame effect on its
progress cell, starting from 0 in the FORMED state, is not one application
of the recurrence at its class speed — the update runs once per instance,
not once per frame. -/
theorem c2_counterexample :
    ornamentsFrameProgress OrnamentKind.ball TreeState.FORMED 0 ≠
      stepProgress (destOf TreeState.FORMED) (ornamentSpeed OrnamentKind.ball) 0 := by
  have h1 : ornamentsFrameProgress OrnamentKind.ball TreeState.FORMED 0 =
      1 - (1 - 0.025) ^ 50 := by
    rw [ornamentsFrameProgress, ornamentsLoop_eq_iterate,
      show destOf TreeState.FORMED = 1 from rfl,
      show ornamentSpeed OrnamentKind.ball = 0.025 from rfl,
      show ornamentCount OrnamentKind.ball = 50 from rfl,
      ← ticks_eq_iterate, ticks_closed_form]
  rw [h1]
  norm_num [stepProgress, destOf, ornamentSpeed]

/-- C9 (amended): progress is owned per animator component, not per rendered
instance. Within one Ornaments mesh all instances read the single shared
cell, instance `i` reading the value after `i + 1` updates of that cell in
the current frame; all PolaroidPhoto children read the one scalar owned by
their parent. Across components the scalars are independent: each
component's per-frame result depends only on its own previous scalar. -/
theorem c9_progress_ownership :
    (∀ (dest speed p : ℚ) (n i : ℕ), i < n →
        (ornamentsProgressReads dest speed n p).get? i =
          some ((stepProgress dest speed)^[i + 1] p)) ∧
    (∀ (shared : ℚ) (i j : ℕ),
        photoProgressRead shared i = photoProgressRead shared j) ∧
    (∀ (s : TreeState) (a b : SystemProgress), a.foliage = b.foliage →
        (systemFrame s a).foliage = (systemFrame s b).foliage) ∧
    (∀ (s : TreeState) (a b : SystemProgress), a.ballGold = b.ballGold →
        (systemFrame s a).ballGold = (systemFrame s b).ballGold) ∧
    (∀ (s : TreeState) (a b : SystemProgress), a.ballRed = b.ballRed →
        (systemFrame s a).ballRed = (systemFrame s b).ballRed) ∧
    (∀ (s : TreeState) (a b : SystemProgress), a.gift = b.gift →
        (systemFrame s a).gift = (systemFrame s b).gift) ∧
    (∀ (s : TreeState) (a b : SystemProgress), a.topper = b.topper →
        (systemFrame s a).topper = (systemFrame s b).topper) ∧
    (∀ (s : TreeState) (a b : SystemProgress), a.photos = b.photos →
        (systemFrame s a).photos = (systemFrame s b).photos) := by
  refine ⟨fun dest speed p n i hi => ornamentsProgressReads_get dest speed n p i hi,
    fun shared i j => rfl, ?_, ?_, ?_, ?_, ?_, ?_⟩ <;>
    intro s a b h <;> simp [systemFrame, h]

/-- C9 counterexample: in one frame of the ball ornament mesh starting at
progress 0 in the FORMED state, instance 1 reads a different progress value
than instance 0 — and exactly the value produced by applying one more
update to what instance 0 read, because both read the one shared cell that
each instance's pass mutates. -/
theorem c9_counterexample :
    (ornamentsProgressReads 1 0.025 50 0).get? 1 ≠
      (ornamentsProgressReads 1 0.025 50 0).get? 0 ∧
    (ornamentsProgressReads 1 0.025 50 0).get? 1 =
      ((ornamentsProgressReads 1 0.025 50 0).get? 0).map (stepProgress 1 0.025) := by
  have h0 := ornamentsProgressReads_get 1 0.025 50 0 0 (by norm_num)
  have h1 := ornamentsProgressReads_get 1 0.025 50 0 1 (by norm_num)
  rw [h0, h1]
  simp only [Function.iterate_succ_apply, Function.iterate_zero, id_eq,
    Function.iterate_one]
  constructor
  · simp only [ne_eq, Option.some.injEq]
    norm_num [stepProgress]
  · simp

/-- The synthetic hand's average fingertip-to-wrist distance is the tip
offset itself. -/
theorem avgTipDist_syntheticHand (d : ℝ) (hd : 0 ≤ d) :
    avgTipDist (syntheticHand d) = d := by
  have he : eucDistXY ⟨0, 0⟩ ⟨d, 0⟩ = d := by
    simp [eucDistXY, Real.sqrt_sq hd]
  have h0 : (syntheticHand d).getD 0 ⟨0, 0⟩ = ⟨0, 0⟩ := rfl
  have h4 : (syntheticHand d).getD 4 ⟨0, 0⟩ = ⟨d, 0⟩ := rfl
  have h8 : (syntheticHand d).getD 8 ⟨0, 0⟩ = ⟨d, 0⟩ := rfl
  have h12 : (syntheticHand d).getD 12 ⟨0, 0⟩ = ⟨d, 0⟩ := rfl
  have h16 : (syntheticHand d).getD 16 ⟨0, 0⟩ = ⟨d, 0⟩ := rfl
  have h20 : (syntheticHand d).getD 20 ⟨0, 0⟩ = ⟨d, 0⟩ := rfl
  rw [avgTipDist, tipIndices]
  rw [List.map_cons, List.map_cons, List.map_cons, List.map_cons, List.map_cons,
    List.map_nil]
  rw [h0, h4, h8, h12, h16, h20, he]
  simp
  ring

/-- C3: the gesture classifier averages the xy-plane Euclidean distances
from the wrist landmark (index 0) to the five fingertip landmarks
(indices 4, 8, 12, 16, 20) and calls the hand open exactly when that
average exceeds 0.25; an average of 0.30 is classified open, and averages
of 0.10 and exactly 0.25 are classified closed. -/
theorem c3_gesture_classifier :
    ∀ landmarks : List Landmark,
      (∀ l ∈ landmarks, 0 ≤ l.x ∧ l.x ≤ 1 ∧ 0 ≤ l.y ∧ l.y ≤ 1) →
      (avgTipDist landmarks =
        (eucDistXY (landmarks.getD 0 ⟨0, 0⟩) (landmarks.getD 4 ⟨0, 0⟩) +
         eucDistXY (landmarks.getD 0 ⟨0, 0⟩) (landmarks.getD 8 ⟨0, 0⟩) +
         eucDistXY (landmarks.getD 0 ⟨0, 0⟩) (landmarks.getD 12 ⟨0, 0⟩) +
         eucDistXY (landmarks.getD 0 ⟨0, 0⟩) (landmarks.getD 16 ⟨0, 0⟩) +
         eucDistXY (landmarks.getD 0 ⟨0, 0⟩) (landmarks.getD 20 ⟨0, 0⟩)) / 5) ∧
      (handIsOpen landmarks = true ↔ avgTipDist landmarks > 0.25) ∧
      (avgTipDist landmarks = 0.30 → handIsOpen landmarks = true) ∧
      (avgTipDist landmarks = 0.10 → handIsOpen landmarks = false) ∧
      (avgTipDist landmarks = 0.25 → handIsOpen landmarks = false) := by
  intro landmarks _
  have hiff : handIsOpen landmarks = true ↔ avgTipDist landmarks > 0.25 := by
    simp [handIsOpen]
  refine ⟨?_, hiff, ?_, ?_, ?_⟩
  · rw [avgTipDist, tipIndices]
    simp only [List.map_cons, List.map_nil, List.sum_cons, List.sum_nil,
      List.length_cons, List.length_nil]
    push_cast
    ring
  · intro h
    exact hiff.mpr (by rw [h]; norm_num)
  · intro h
    rw [Bool.eq_false_iff]
    intro ht
    have hgt := hiff.mp ht
    rw [h] at hgt
    norm_num at hgt
  · intro h
    rw [Bool.eq_false_iff]
    intro ht
    have hgt := hiff.mp ht
    rw [h] at hgt
    norm_num at hgt

/-- C3 witness: concrete 21-landmark hands with all coordinates in [0, 1]
whose average fingertip-to-wrist distances are 0.30, 0.10 and 0.25 are
classified open, closed and closed respectively. -/
theorem c3_gesture_classifier_witness :
    handIsOpen (syntheticHand 0.30) = true ∧
    handIsOpen (syntheticHand 0.10) = false ∧
    handIsOpen (syntheticHand 0.25) = false := by
  have hco : ∀ d : ℝ, 0 ≤ d → d ≤ 1 →
      ∀ l ∈ syntheticHand d, 0 ≤ l.x ∧ l.x ≤ 1 ∧ 0 ≤ l.y ∧ l.y ≤ 1 := by
    intro d hd hd1 l hl
    fin_cases hl <;> simp <;> constructor <;> norm_num [hd, hd1]
  refine ⟨(c3_gesture_classifier (syntheticHand 0.30)
      (hco 0.30 (by norm_num) (by norm_num))).2.2.1
      (avgTipDist_syntheticHand 0.30 (by norm_num)),
    (c3_gesture_classifier (syntheticHand 0.10)
      (hco 0.10 (by norm_num) (by norm_num))).2.2.2.1
      (avgTipDist_syntheticHand 0.10 (by norm_num)),
    (c3_gesture_classifier (syntheticHand 0.25)
      (hco 0.25 (by norm_num) (by norm_num))).2.2.2.2
      (avgTipDist_syntheticHand 0.25 (by norm_num))⟩

/-- C4: for an initialized, running service, the per-frame detection step
returns the distinguished `none` ("no new data this tick") exactly when the
video frame has zero width or height, the video timestamp equals the
already-processed one, or inference throws; and whenever it returns `none`
the loop body leaves the stored gesture and tree state untouched. -/
theorem c4_detect_no_new_data :
    ∀ (s : VisionState) (f : VideoFrame),
      s.hasLandmarker = true → s.hasVideo = true → s.isRunning = true →
      ((detect s f).1 = none ↔
        (f.videoWidth = 0 ∨ f.videoHeight = 0 ∨ f.currentTime = s.lastVideoTime ∨
          f.inference = InferenceResult.throwsErr)) ∧
      ((detect s f).1 = none → ∀ m : AppModel, applyDetect m (detect s f).1 = m) := by
  intro s f hl hv hr
  constructor
  · rcases f with ⟨w, ht, t, inf⟩
    by_cases hw : w = 0 <;> by_cases hh : ht = 0 <;>
      by_cases htt : t = s.lastVideoTime <;>
      rcases inf with _ | ⟨_ | ⟨hand, rest⟩⟩ <;>
      simp [detect, hl, hv, hr, hw, hh, htt]
  · intro hnone m
    rw [hnone]
    rfl

/-- C4 witness: a not-yet-decoded frame (zero width) on a running service
yields the distinguished `none`, and the loop body keeps the model intact. -/
theorem c4_detect_no_new_data_witness :
    (detect ⟨true, true, true, 0⟩ ⟨0, 480, 1, InferenceResult.hands []⟩).1 = none ∧
    applyDetect ⟨none, TreeState.CHAOS⟩
        (detect ⟨true, true, true, 0⟩ ⟨0, 480, 1, InferenceResult.hands []⟩).1 =
      ⟨none, TreeState.CHAOS⟩ := by
  have h := c4_detect_no_new_data ⟨true, true, true, 0⟩
    ⟨0, 480, 1, InferenceResult.hands []⟩ rfl rfl rfl
  have hnone := h.1.mpr (Or.inl rfl)
  exact ⟨hnone, h.2 hnone _⟩

/-- C10: on a fresh, decodable frame where inference succeeds but finds no
hand, detect returns exactly the zeroed not-detected reading, and the loop
body overwrites the stored gesture with that zeroed reading while leaving
the tree state unchanged. -/
theorem c10_zeroed_not_detected_reading :
    ∀ (s : VisionState) (f : VideoFrame) (m : AppModel),
      s.hasLandmarker = true → s.hasVideo = true → s.isRunning = true →
      f.videoWidth ≠ 0 → f.videoHeight ≠ 0 → f.currentTime ≠ s.lastVideoTime →
      f.inference = InferenceResult.hands [] →
      (detect s f).1 = some { isOpen := false, x := 0, y := 0, detected := false } ∧
      (applyDetect m (detect s f).1).gesture =
        some { isOpen := false, pos := (0, 0), detected := false } ∧
      (applyDetect m (detect s f).1).treeState = m.treeState := by
  intro s f m hl hv hr hw hh ht hinf
  have hd : (detect s f).1 =
      some { isOpen := false, x := 0, y := 0, detected := false } := by
    simp [detect, hl, hv, hr, hw, hh, ht, hinf]
  refine ⟨hd, ?_, ?_⟩ <;> rw [hd] <;> simp [applyDetect]

/-- C10 witness: a concrete fresh 640×480 frame with an empty hand list
produces the zeroed not-detected reading and overwrites the stored gesture. -/
theorem c10_zeroed_not_detected_reading_witness :
    (detect ⟨true, true, true, 0⟩ ⟨640, 480, 1, InferenceResult.hands []⟩).1 =
      some ⟨false, 0, 0, false⟩ ∧
    (applyDetect ⟨some ⟨true, (1, 1), true⟩, TreeState.FORMED⟩
        (detect ⟨true, true, true, 0⟩
          ⟨640, 480, 1, InferenceResult.hands []⟩).1).gesture =
      some ⟨false, (0, 0), false⟩ ∧
    (applyDetect ⟨some ⟨true, (1, 1), true⟩, TreeState.FORMED⟩
        (detect ⟨true, true, true, 0⟩
          ⟨640, 480, 1, InferenceResult.hands []⟩).1).treeState =
      TreeState.FORMED :=
  c10_zeroed_not_detected_reading ⟨true, true, true, 0⟩
    ⟨640, 480, 1, InferenceResult.hands []⟩
    ⟨some ⟨true, (1, 1), true⟩, TreeState.FORMED⟩
    rfl rfl rfl (by norm_num) (by norm_num) (by norm_num) rfl

/-- The non-camera failure message is never empty: either the thrown
error's message is kept (when non-empty) or the fixed fallback is used. -/
theorem startFailureMessage_ne_empty : ∀ msg, startFailureMessage msg ≠ "" := by
  intro msg
  cases msg with
  | none => decide
  | some m =>
      rw [startFailureMessage]
      split
      · decide
      · next hm => simpa using hm

/-- C5: an initialization failure whose error name is one of the five
camera/permission names sends the app to RUNNING (manual mode) with no
error message, while any other failure sends it to ERROR with a non-empty
user-visible message. -/
theorem c5_start_error_handling :
    ∀ (errName : String) (errMessage : Option String),
      (cameraRelated errName = true ↔
        errName ∈ ["NotFoundError", "NotAllowedError", "NotReadableError",
          "OverconstrainedError", "SecurityError"]) ∧
      (cameraRelated errName = true →
        startExperienceFailure errName errMessage = (AppState.RUNNING, "")) ∧
      (cameraRelated errName = false →
        (startExperienceFailure errName errMessage).1 = AppState.ERROR ∧
        (startExperienceFailure errName errMessage).2 ≠ "") := by
  intro errName errMessage
  refine ⟨?_, ?_, ?_⟩
  · simp [cameraRelated]
    tauto
  · intro h
    simp [startExperienceFailure, h]
  · intro h
    have hif : startExperienceFailure errName errMessage =
        (AppState.ERROR, startFailureMessage errMessage) := by
      rw [startExperienceFailure, h]
      simp
    rw [hif]
    exact ⟨rfl, startFailureMessage_ne_empty errMessage⟩

/-- C5 witness: a permission denial proceeds to RUNNING with no message; a
generic failure with no message text lands in ERROR with the fallback
message. -/
theorem c5_start_error_handling_witness :
    startExperienceFailure "NotAllowedError" none = (AppState.RUNNING, "") ∧
    (startExperienceFailure "TypeError" none).1 = AppState.ERROR ∧
    (startExperienceFailure "TypeError" none).2 ≠ "" := by
  refine ⟨(c5_start_error_handling "NotAllowedError" none).2.1 rfl, ?_⟩
  exact (c5_start_error_handling "TypeError" none).2.2 rfl

/-- C6: getConePoint places the point at internal height `y = u1 · height`
(reported as `y − height/2 + verticalBias`), and its horizontal distance
from the axis never exceeds the taper bound `(1 − y/height) · maxRadius`. -/
theorem c6_cone_point_bound :
    ∀ height maxRadius verticalBias u1 u2 u3 : ℝ,
      0 < height → 0 ≤ maxRadius → 0 ≤ u1 → u1 < 1 → 0 ≤ u3 → u3 < 1 →
      ((getConePoint height maxRadius verticalBias u1 u2 u3).2.1 =
        u1 * height - height / 2 + verticalBias) ∧
      Real.sqrt ((getConePoint height maxRadius verticalBias u1 u2 u3).1 ^ 2 +
          (getConePoint height maxRadius verticalBias u1 u2 u3).2.2 ^ 2) ≤
        (1 - u1 * height / height) * maxRadius := by
  intro height maxRadius verticalBias u1 u2 u3 hh hmr hu1 hu1' hu3 hu3'
  have hdiv : u1 * height / height = u1 := by
    field_simp
  have hbound : 0 ≤ (1 - u1 * height / height) * maxRadius := by
    rw [hdiv]
    have : 0 ≤ 1 - u1 := by linarith
    exact mul_nonneg this hmr
  have hrnn : 0 ≤ Real.sqrt u3 * ((1 - u1 * height / height) * maxRadius) :=
    mul_nonneg (Real.sqrt_nonneg _) hbound
  refine ⟨rfl, ?_⟩
  have hxz : (getConePoint height maxRadius verticalBias u1 u2 u3).1 ^ 2 +
      (getConePoint height maxRadius verticalBias u1 u2 u3).2.2 ^ 2 =
      (Real.sqrt u3 * ((1 - u1 * height / height) * maxRadius)) ^ 2 := by
    show (Real.sqrt u3 * ((1 - u1 * height / height) * maxRadius) *
        Real.cos (u2 * Real.pi * 2)) ^ 2 +
      (Real.sqrt u3 * ((1 - u1 * height / height) * maxRadius) *
        Real.sin (u2 * Real.pi * 2)) ^ 2 = _
    have hpy := Real.cos_sq_add_sin_sq (u2 * Real.pi * 2)
    nlinarith [hpy]
  rw [hxz, Real.sqrt_sq hrnn]
  calc Real.sqrt u3 * ((1 - u1 * height / height) * maxRadius)
      ≤ 1 * ((1 - u1 * height / height) * maxRadius) :=
        mul_le_mul_of_nonneg_right (Real.sqrt_le_one.mpr hu3'.le) hbound
    _ = (1 - u1 * height / height) * maxRadius := one_mul _

/-- C6 witness: with height 2, maxRadius 1, no bias, and draws
(1/2, 0, 1/4), the sampled point sits at the claimed height and inside the
taper bound. -/
theorem c6_cone_point_bound_witness :
    ((getConePoint 2 1 0 (1/2) 0 (1/4)).2.1 = (1/2) * 2 - 2 / 2 + 0) ∧
    Real.sqrt ((getConePoint 2 1 0 (1/2) 0 (1/4)).1 ^ 2 +
        (getConePoint 2 1 0 (1/2) 0 (1/4)).2.2 ^ 2) ≤
      (1 - (1/2) * 2 / 2) * 1 :=
  c6_cone_point_bound 2 1 0 (1/2) 0 (1/4) (by norm_num) (by norm_num)
    (by norm_num) (by norm_num) (by norm_num) (by norm_num)

/-- Squared norm of a point in spherical coordinates collapses to the
squared radial distance. -/
theorem sphericalNormSq (a th ph : ℝ) :
    (a * Real.sin ph * Real.cos th) ^ 2 + (a * Real.sin ph * Real.sin th) ^ 2 +
      (a * Real.cos ph) ^ 2 = a ^ 2 := by
  have hth := Real.cos_sq_add_sin_sq th
  have hph := Real.sin_sq_add_cos_sq ph
  calc (a * Real.sin ph * Real.cos th) ^ 2 + (a * Real.sin ph * Real.sin th) ^ 2 +
        (a * Real.cos ph) ^ 2
      = a ^ 2 * ((Real.cos th ^ 2 + Real.sin th ^ 2) * Real.sin ph ^ 2 +
          Real.cos ph ^ 2) := by ring
    _ = a ^ 2 * (Real.sin ph ^ 2 + Real.cos ph ^ 2) := by rw [hth, one_mul]
    _ = a ^ 2 := by rw [hph, mul_one]

/-- C7: every point getRandomSpherePoint produces has Euclidean norm at
most the given radius: the cube-root radial scaling keeps the radial
distance in `[0, radius]` and the spherical angles do not change the norm. -/
theorem c7_sphere_point_norm :
    ∀ radius u v w : ℝ,
      0 < radius → 0 ≤ u → u < 1 → 0 ≤ v → v < 1 → 0 ≤ w → w < 1 →
      Real.sqrt ((getRandomSpherePoint radius u v w).1 ^ 2 +
          (getRandomSpherePoint radius u v w).2.1 ^ 2 +
          (getRandomSpherePoint radius u v w).2.2 ^ 2) ≤ radius := by
  intro radius u v w hr hu hu' hv hv' hw hw'
  have hcb : 0 ≤ w ^ ((1 : ℝ) / 3) := Real.rpow_nonneg hw _
  have hcb1 : w ^ ((1 : ℝ) / 3) ≤ 1 :=
    Real.rpow_le_one hw hw'.le (by norm_num)
  have hrnn : 0 ≤ w ^ ((1 : ℝ) / 3) * radius := mul_nonneg hcb hr.le
  have hxyz : (getRandomSpherePoint radius u v w).1 ^ 2 +
      (getRandomSpherePoint radius u v w).2.1 ^ 2 +
      (getRandomSpherePoint radius u v w).2.2 ^ 2 =
      (w ^ ((1 : ℝ) / 3) * radius) ^ 2 := by
    show (w ^ ((1 : ℝ) / 3) * radius * Real.sin (Real.arccos (2 * v - 1)) *
        Real.cos (2 * Real.pi * u)) ^ 2 +
      (w ^ ((1 : ℝ) / 3) * radius * Real.sin (Real.arccos (2 * v - 1)) *
        Real.sin (2 * Real.pi * u)) ^ 2 +
      (w ^ ((1 : ℝ) / 3) * radius * Real.cos (Real.arccos (2 * v - 1))) ^ 2 = _
    exact sphericalNormSq (w ^ ((1 : ℝ) / 3) * radius) (2 * Real.pi * u)
      (Real.arccos (2 * v - 1))
  rw [hxyz, Real.sqrt_sq hrnn]
  calc w ^ ((1 : ℝ) / 3) * radius ≤ 1 * radius :=
        mul_le_mul_of_nonneg_right hcb1 hr.le
    _ = radius := one_mul _

/-- C7 witness: with radius 1 and draws (0, 1/2, 1/8) the sampled point's
norm is at most 1. -/
theorem c7_sphere_point_norm_witness :
    Real.sqrt ((getRandomSpherePoint 1 0 (1/2) (1/8)).1 ^ 2 +
        (getRandomSpherePoint 1 0 (1/2) (1/8)).2.1 ^ 2 +
        (getRandomSpherePoint 1 0 (1/2) (1/8)).2.2 ^ 2) ≤ 1 :=
  c7_sphere_point_norm 1 0 (1/2) (1/8) (by norm_num) (by norm_num)
    (by norm_num) (by norm_num) (by norm_num) (by norm_num) (by norm_num)

/-- C8: preloading keeps exactly the candidates whose image loads (each
broken image is dropped individually), so a 3-file manifest with one broken
image yields exactly 2 photo entities; with 2 photos the assigned internal
heights fall in the two disjoint halves of the placement range for every
admissible jitter; and a failed fetch, non-ok response or invalid manifest
yields an empty file list and hence zero photo entities. -/
theorem c8_photo_manifest :
    (∀ (resolveUrl : String → String) (loads : String → Bool)
        (files : List String),
        (loadedPhotoItems resolveUrl loads files).length =
          (photoCandidates resolveUrl files).countP (fun c => loads c.src)) ∧
    (∀ (resolveUrl : String → String) (loads : String → Bool) (a b c : String),
        loads (resolveUrl a) = true → loads (resolveUrl b) = false →
        loads (resolveUrl c) = true →
        (loadedPhotoItems resolveUrl loads [a, b, c]).length = 2) ∧
    (∀ j0 j1 : ℚ, -0.6 ≤ j0 → j0 ≤ 0.6 → -0.6 ≤ j1 → j1 ≤ 0.6 →
        photoMinY ≤ photoYInternal 2 0 j0 ∧
        photoYInternal 2 0 j0 < photoBandMid ∧
        photoBandMid < photoYInternal 2 1 j1 ∧
        photoYInternal 2 1 j1 ≤ photoMaxY) ∧
    (∀ (resolveUrl : String → String) (loads : String → Bool) (st : ℕ),
        loadedPhotoItems resolveUrl loads
          (manifestFiles ManifestFetch.fetchFail) = [] ∧
        loadedPhotoItems resolveUrl loads
          (manifestFiles (ManifestFetch.notOk st)) = [] ∧
        loadedPhotoItems resolveUrl loads
          (manifestFiles (ManifestFetch.ok (ManifestJson.obj none))) = []) := by
  refine ⟨?_, ?_, ?_, ?_⟩
  · intro resolveUrl loads files
    rw [loadedPhotoItems, List.countP_eq_length_filter]
  · intro resolveUrl loads a b c ha hb hc
    simp [loadedPhotoItems, photoCandidates, List.enum, List.enumFrom,
      List.filter, ha, hb, hc]
  · intro j0 j1 h00 h01 h10 h11
    have hc0 : photoBandCenter 2 0 = 3.65 := by
      norm_num [photoBandCenter, photoMinY, photoMaxY, treeHeight]
    have hc1 : photoBandCenter 2 1 = 7.35 := by
      norm_num [photoBandCenter, photoMinY, photoMaxY, treeHeight]
    have hminY : photoMinY = 1.8 := rfl
    have hmaxY : photoMaxY = (9.2 : ℚ) := by norm_num [photoMaxY, treeHeight]
    have hmid : photoBandMid = (5.5 : ℚ) := by
      norm_num [photoBandMid, photoMinY, photoMaxY, treeHeight]
    rw [photoYInternal, photoYInternal, clampQ, clampQ, hc0, hc1, hminY, hmaxY, hmid]
    have hlt0 : min (9.2 : ℚ) (3.65 + j0) < 5.5 :=
      lt_of_le_of_lt (min_le_right _ _) (by linarith)
    have hgt1 : (5.5 : ℚ) < min 9.2 (7.35 + j1) :=
      lt_min (by norm_num) (by linarith)
    exact ⟨le_max_left _ _, max_lt (by norm_num) hlt0,
      lt_of_lt_of_le hgt1 (le_max_right _ _),
      max_le (by norm_num) (min_le_left _ _)⟩
  · intro resolveUrl loads st
    exact ⟨rfl, rfl, rfl⟩

/-- C8 witness: a concrete 3-file manifest where only the middle image
fails to load yields exactly 2 photo items, their height bands are the two
disjoint halves of the range at zero jitter, and a failed fetch yields no
items. -/
theorem c8_photo_manifest_witness :
    (loadedPhotoItems id (fun src => !(src == "b.jpg")) ["a.jpg", "b.jpg", "c.jpg"]).length = 2 ∧
    (photoMinY ≤ photoYInternal 2 0 0 ∧ photoYInternal 2 0 0 < photoBandMid ∧
      photoBandMid < photoYInternal 2 1 0 ∧ photoYInternal 2 1 0 ≤ photoMaxY) ∧
    loadedPhotoItems id (fun src => !(src == "b.jpg"))
      (manifestFiles ManifestFetch.fetchFail) = [] :=
  ⟨c8_photo_manifest.2.1 id (fun src => !(src == "b.jpg")) "a.jpg" "b.jpg" "c.jpg"
      rfl rfl rfl,
   c8_photo_manifest.2.2.1 0 0 (by norm_num) (by norm_num) (by norm_num) (by norm_num),
   (c8_photo_manifest.2.2.2 id (fun src => !(src == "b.jpg")) 404).1⟩
